import Mathlib

/-! Verification of the syscall core in kern/syscall.c (an exokernel-style
microkernel lab).  The handlers of syscall.c are embedded shallowly as pure
functions over an explicit kernel state.  The external collaborators the
core consumes (kern/pmap.c, kern/env.c, the headers) are not part of the
source; where a definition stands in for one of them its doc comment says
so and follows the specification of that interface. -/

namespace Jos

/-- Modelled from the spec: inc/memlayout.h is not in the source.  `UTOP` is
the top of the user-controlled virtual address range (JOS value `0xEEC00000`).
User-supplied addresses must be strictly below it. -/
def UTOP : Nat := 0xEEC00000

/-- Modelled from the spec: inc/mmu.h is not in the source.  The architectural
page size. -/
def PGSIZE : Nat := 4096

/-- Page-table entry bit: present. -/
def PTE_P : Nat := 0x001

/-- Page-table entry bit: writable. -/
def PTE_W : Nat := 0x002

/-- Page-table entry bit: user-accessible. -/
def PTE_U : Nat := 0x004

/-- Page-table entry bits available for software use. -/
def PTE_AVAIL : Nat := 0xE00

/-- The permission bits a user is allowed to pass to a syscall. -/
def PTE_SYSCALL : Nat := PTE_AVAIL ||| PTE_P ||| PTE_W ||| PTE_U

/-- The 32-bit complement of PTE_SYSCALL, as computed by the C expression
`~PTE_SYSCALL` on a 32-bit int. -/
def NOT_PTE_SYSCALL : Nat := 0xFFFFFFFF ^^^ PTE_SYSCALL

/-- Modelled from the spec: error constants of inc/error.h (not in the
source).  The syscall convention returns their negations. -/
def E_BAD_ENV : Int := 2

/-- Invalid-argument error constant. -/
def E_INVAL : Int := 3

/-- Out-of-memory error constant. -/
def E_NO_MEM : Int := 4

/-- No-free-environment error constant. -/
def E_NO_FREE_ENV : Int := 5

/-- Target-not-receiving error constant. -/
def E_IPC_NOT_RECV : Int := 7

/-- Modelled from the spec: env status constants of inc/env.h (not in the
source). -/
def ENV_FREE : Nat := 0

/-- Status of an env being torn down. -/
def ENV_DYING : Nat := 1

/-- Status of an env eligible to be scheduled. -/
def ENV_RUNNABLE : Nat := 2

/-- Status of the env currently executing. -/
def ENV_RUNNING : Nat := 3

/-- Status of a blocked (or not yet started) env. -/
def ENV_NOT_RUNNABLE : Nat := 4

/-- The general-purpose register block of a saved trap frame.  Only the
accumulator (the return-value register, `reg_eax`) is tracked individually;
the remaining general-purpose registers are summarised by one abstract
word. -/
structure PushRegs where
  reg_eax : Nat
  reg_rest : Nat
  deriving DecidableEq

/-- A saved register frame (struct Trapframe).  The segment selectors, flags,
instruction and stack pointers are summarised by one abstract word `tf_rest`;
no claim under proof distinguishes them. -/
structure Trapframe where
  tf_regs : PushRegs
  tf_rest : Nat
  deriving DecidableEq

/-- A per-env page directory, represented as an association list from
page-aligned virtual address to (physical page, page-table entry bits). -/
abbrev Pgdir := List (Nat × Nat × Nat)

/-- The environment structure (struct Env), restricted to the fields the
syscall core reads or writes.  `env_ipc_pending_page = none` models the C
NULL pointer. -/
structure Env where
  env_id : Nat
  env_parent_id : Nat
  env_status : Nat
  env_tf : Trapframe
  env_pgdir : Pgdir
  env_pgfault_upcall : Nat
  env_break : Nat
  env_ipc_recving : Bool
  env_ipc_dstva : Nat
  env_ipc_from : Nat
  env_ipc_value : Nat
  env_ipc_perm : Nat
  env_ipc_pending_envid : Nat
  env_ipc_pending_value : Nat
  env_ipc_pending_page : Option Nat
  env_ipc_pending_perm : Nat
  deriving DecidableEq

/-- The kernel state visible to the syscall core: the env table, the index of
the current environment, and the physical allocator's free list. -/
structure KState where
  envs : List Env
  cur : Nat
  free_pages : List Nat
  deriving DecidableEq

/-- The all-zero environment, used as the out-of-range default of the env
table accessor. -/
def emptyEnv : Env :=
  { env_id := 0, env_parent_id := 0, env_status := ENV_FREE
    env_tf := { tf_regs := { reg_eax := 0, reg_rest := 0 }, tf_rest := 0 }
    env_pgdir := [], env_pgfault_upcall := 0, env_break := 0
    env_ipc_recving := false, env_ipc_dstva := 0, env_ipc_from := 0
    env_ipc_value := 0, env_ipc_perm := 0, env_ipc_pending_envid := 0
    env_ipc_pending_value := 0, env_ipc_pending_page := none
    env_ipc_pending_perm := 0 }

/-- Read slot `i` of the env table. -/
def getE (st : KState) (i : Nat) : Env :=
  st.envs.getD i emptyEnv

/-- Write slot `i` of the env table. -/
def setE (st : KState) (i : Nat) (e : Env) : KState :=
  { st with envs := st.envs.set i e }

/-- Modelled from the spec: page_lookup from kern/pmap.c (not in the source).
Returns the physical page mapped at `va` together with its page-table entry,
or `none` when `va` is unmapped. -/
def page_lookup (pd : Pgdir) (va : Nat) : Option (Nat × Nat) :=
  match pd with
  | [] => none
  | (v, p, pte) :: rest => if v = va then some (p, pte) else page_lookup rest va

/-- Modelled from the spec: the successful effect of page_insert from
kern/pmap.c (not in the source): map `page` at `va` with bits
`perm ||| PTE_P`, implicitly replacing any previous mapping at `va`.  Its
possible -E_NO_MEM failure (page-table allocation) is modelled by the
`insertOk` oracle parameter of the handlers that call it; on failure the
directory is unchanged. -/
def page_insert (pd : Pgdir) (page va perm : Nat) : Pgdir :=
  (va, page, perm ||| PTE_P) :: pd.filter (fun e => e.1 != va)

/-- Modelled from the spec: page_alloc from kern/pmap.c (not in the source):
pop a page off the physical free list, or fail when the list is empty. -/
def pageAllocPhys (st : KState) : Option (Nat × KState) :=
  match st.free_pages with
  | [] => none
  | p :: rest => some (p, { st with free_pages := rest })

/-- Modelled from the spec: page_free from kern/pmap.c (not in the source):
return a page to the physical free list. -/
def pageFreePhys (st : KState) (p : Nat) : KState :=
  { st with free_pages := p :: st.free_pages }

/-- The permission validation shared by the handlers, mirroring the C
expression `!(perm & PTE_U) || !(perm & PTE_P) || (perm & ~PTE_SYSCALL)`:
bad iff PTE_U or PTE_P is missing or a bit outside PTE_SYSCALL is set. -/
def permBad (perm : Nat) : Bool :=
  (perm &&& PTE_U == 0) || (perm &&& PTE_P == 0) || (perm &&& NOT_PTE_SYSCALL != 0)

/-- Modelled from the spec: envid2env from kern/env.c (not in the source).
Find the slot of the live env with identifier `envid`. -/
def findEnvIdx (envid : Nat) : List Env → Option Nat
  | [] => none
  | e :: rest =>
    if e.env_id = envid ∧ e.env_status ≠ ENV_FREE then some 0
    else (findEnvIdx envid rest).map (fun n => n + 1)

/-- Modelled from the spec: envid2env from kern/env.c (not in the source).
An `envid` of 0 designates the current env; otherwise the env is found by
identifier among the live slots, and when `checkperm` is set the caller must
be the target itself or its immediate parent. -/
def envid2env (st : KState) (envid : Nat) (checkperm : Bool) : Option Nat :=
  if envid = 0 then some st.cur
  else
    match findEnvIdx envid st.envs with
    | none => none
    | some i =>
      if checkperm then
        if (getE st i).env_id = (getE st st.cur).env_id ∨
           (getE st i).env_parent_id = (getE st st.cur).env_id then some i
        else none
      else some i

/-- The result of a syscall handler: a returned value, a voluntary suspension
(the handler parked its caller and called sched_yield, so the value observed
later comes from the saved trap frame), or a kernel panic. -/
inductive SysRes where
  | val (r : Int)
  | yielded
  | panicked
  deriving DecidableEq

/-- sys_exofork: allocate a new env whose parent is the caller, copy the
caller's register frame and break pointer, mark it NOT_RUNNABLE and zero its
saved accumulator.  env_alloc lives in kern/env.c (not in the source); its
outcome is supplied as `allocRes`: on success it yields the freshly allocated
env, whose parent field env_alloc has set to the given parent id per the
spec, and on failure the negative error it returned.  The function returns
the value handed to the parent together with the child env, if any. -/
def env_alloc (fresh : Env) (parent_id : Nat) : Env :=
  { fresh with env_parent_id := parent_id }

/-- The body of sys_exofork from the source, acting on the caller env. -/
def sys_exofork (cur : Env) (allocRes : Except Int Env) : Int × Option Env :=
  match allocRes with
  | .error r => (r, none)
  | .ok fresh =>
    let newenv := env_alloc fresh cur.env_id
    let newenv := { newenv with env_status := ENV_NOT_RUNNABLE }
    let newenv := { newenv with env_tf := cur.env_tf }
    let newenv := { newenv with env_break := cur.env_break }
    let newenv := { newenv with
                    env_tf := { newenv.env_tf with
                                tf_regs := { newenv.env_tf.tf_regs with reg_eax := 0 } } }
    ((newenv.env_id : Int), some newenv)

/-- sys_map_kernel_page from the source.  pa2page (kern/pmap.c, external) is
represented by its result: `kpage_page = none` models a physical address with
no managed struct Page.  The source returns the positive constant E_INVAL on
that path (it writes `return E_INVAL;`, not `return -E_INVAL;`).  The
page_insert failure is the `insertOk` oracle. -/
def sys_map_kernel_page (st : KState) (kpage_page : Option Nat) (va : Nat)
    (insertOk : Bool) : Int × KState :=
  match kpage_page with
  | none => (E_INVAL, st)
  | some p =>
    if insertOk then
      (0, setE st st.cur
            { getE st st.cur with
              env_pgdir := page_insert (getE st st.cur).env_pgdir p va (PTE_U ||| PTE_W) })
    else (-E_NO_MEM, st)

/-- sys_env_set_pgfault_upcall from the source: look the target up with the
permission check; then the source panics on a null `func`
(`if (!func) panic(...)`) before recording the upcall address. -/
def sys_env_set_pgfault_upcall (st : KState) (envid func : Nat) : SysRes × KState :=
  match envid2env st envid true with
  | none => (SysRes.val (-E_BAD_ENV), st)
  | some i =>
    if func = 0 then (SysRes.panicked, st)
    else (SysRes.val 0, setE st i { getE st i with env_pgfault_upcall := func })

/-- sys_page_alloc from the source: lookup with permission check, va range
and alignment check, perm check, then allocate a zeroed page and insert it;
if page_insert fails the freshly allocated page is freed again. -/
def sys_page_alloc (st : KState) (envid va perm : Nat) (insertOk : Bool) : Int × KState :=
  match envid2env st envid true with
  | none => (-E_BAD_ENV, st)
  | some i =>
    if UTOP ≤ va ∨ va % PGSIZE ≠ 0 then (-E_INVAL, st)
    else if permBad perm then (-E_INVAL, st)
    else
      match pageAllocPhys st with
      | none => (-E_NO_MEM, st)
      | some (p, st1) =>
        if insertOk then
          (0, setE st1 i
                { getE st1 i with env_pgdir := page_insert (getE st1 i).env_pgdir p va perm })
        else (-E_NO_MEM, pageFreePhys st1 p)

/-- sys_page_map from the source: look up both envs with permission checks,
check both virtual addresses, require the source page to be mapped, validate
perm, refuse to grant PTE_W when the source entry lacks it, then share the
page into the destination directory. -/
def sys_page_map (st : KState) (srcenvid srcva dstenvid dstva perm : Nat)
    (insertOk : Bool) : Int × KState :=
  match envid2env st srcenvid true with
  | none => (-E_BAD_ENV, st)
  | some si =>
    match envid2env st dstenvid true with
    | none => (-E_BAD_ENV, st)
    | some di =>
      if UTOP ≤ srcva ∨ srcva % PGSIZE ≠ 0 then (-E_INVAL, st)
      else if UTOP ≤ dstva ∨ dstva % PGSIZE ≠ 0 then (-E_INVAL, st)
      else
        match page_lookup (getE st si).env_pgdir srcva with
        | none => (-E_INVAL, st)
        | some (page, srcpte) =>
          if permBad perm then (-E_INVAL, st)
          else if perm &&& PTE_W ≠ 0 ∧ srcpte &&& PTE_W = 0 then (-E_INVAL, st)
          else if insertOk then
            (0, setE st di
                  { getE st di with
                    env_pgdir := page_insert (getE st di).env_pgdir page dstva perm })
          else (-E_NO_MEM, st)

/-- The first statement of sys_ipc_try_send after the target lookup (source
lines 439-442): if the target is receiving, clear its env_ipc_perm, else
clear the caller's parked pending page.  It runs before any validation. -/
def ipcSendStep1 (st : KState) (ti : Nat) : KState :=
  if (getE st ti).env_ipc_recving then
    setE st ti { getE st ti with env_ipc_perm := 0 }
  else
    setE st st.cur { getE st st.cur with env_ipc_pending_page := none }

/-- The closing block of sys_ipc_try_send (source lines 468-479): if the
target is receiving, complete the rendezvous — clear env_ipc_recving, record
sender and value, mark the target RUNNABLE and zero its saved accumulator —
and return 0; otherwise park the caller's send (pending envid and value),
mark the caller NOT_RUNNABLE and yield. -/
def ipcSendFinish (st : KState) (ti envid value : Nat) : SysRes × KState :=
  if (getE st ti).env_ipc_recving then
    (SysRes.val 0,
      setE st ti
        { getE st ti with
          env_ipc_recving := false
          env_ipc_from := (getE st st.cur).env_id
          env_ipc_value := value
          env_status := ENV_RUNNABLE
          env_tf := { (getE st ti).env_tf with
                      tf_regs := { (getE st ti).env_tf.tf_regs with reg_eax := 0 } } })
  else
    (SysRes.yielded,
      setE st st.cur
        { getE st st.cur with
          env_ipc_pending_envid := envid
          env_ipc_pending_value := value
          env_status := ENV_NOT_RUNNABLE })

/-- The page-transfer section of sys_ipc_try_send (source lines 444-466),
running on the state left by `ipcSendStep1`: when the sender passes
`srcva < UTOP` and either the target's recorded env_ipc_dstva is below UTOP
or the target is not receiving, validate alignment, perm, the source mapping
and the no-write-escalation rule, then either insert the page into a
receiving target (recording env_ipc_perm) or stash page and perm into the
caller's pending fields. -/
def ipcSendRest (st : KState) (ti envid value srcva perm : Nat)
    (insertOk : Bool) : SysRes × KState :=
  if srcva < UTOP ∧
     ((getE st ti).env_ipc_dstva < UTOP ∨ (getE st ti).env_ipc_recving = false) then
    if srcva % PGSIZE ≠ 0 then (SysRes.val (-E_INVAL), st)
    else if permBad perm then (SysRes.val (-E_INVAL), st)
    else
      match page_lookup (getE st st.cur).env_pgdir srcva with
      | none => (SysRes.val (-E_INVAL), st)
      | some (page, srcpte) =>
        if perm &&& PTE_W ≠ 0 ∧ srcpte &&& PTE_W = 0 then (SysRes.val (-E_INVAL), st)
        else if (getE st ti).env_ipc_recving then
          if insertOk then
            ipcSendFinish
              (setE st ti
                { getE st ti with
                  env_pgdir :=
                    page_insert (getE st ti).env_pgdir page (getE st ti).env_ipc_dstva perm
                  env_ipc_perm := perm })
              ti envid value
          else (SysRes.val (-E_NO_MEM), st)
        else
          ipcSendFinish
            (setE st st.cur
              { getE st st.cur with
                env_ipc_pending_page := some page
                env_ipc_pending_perm := perm })
            ti envid value
  else ipcSendFinish st ti envid value

/-- sys_ipc_try_send from the source: resolve the target without a permission
check, run the early-clear statement, then the page-transfer section and the
closing rendezvous-or-park block. -/
def sys_ipc_try_send (st : KState) (envid value srcva perm : Nat)
    (insertOk : Bool) : SysRes × KState :=
  match envid2env st envid false with
  | none => (SysRes.val (-E_BAD_ENV), st)
  | some ti => ipcSendRest (ipcSendStep1 st ti) ti envid value srcva perm insertOk

/-- The env-table scan of sys_ipc_recv (source lines 515-517): the index of
the first env that is not FREE and whose parked send targets `curid`. -/
def scanPending (curid : Nat) : List Env → Option Nat
  | [] => none
  | e :: rest =>
    if e.env_status ≠ ENV_FREE ∧ e.env_ipc_pending_envid = curid then some 0
    else (scanPending curid rest).map (fun n => n + 1)

/-- The delivery tail of the harvest branch of sys_ipc_recv (source lines
527-532): copy the parked value and sender id into the caller, clear the
sender's pending envid, mark the sender RUNNABLE and zero its saved
accumulator, and return 0. -/
def ipcRecvDeliver (st : KState) (i : Nat) : SysRes × KState :=
  let st1 := setE st st.cur
               { getE st st.cur with
                 env_ipc_value := (getE st i).env_ipc_pending_value
                 env_ipc_from := (getE st i).env_id }
  (SysRes.val 0,
    setE st1 i
      { getE st1 i with
        env_ipc_pending_envid := 0
        env_status := ENV_RUNNABLE
        env_tf := { (getE st1 i).env_tf with
                    tf_regs := { (getE st1 i).env_tf.tf_regs with reg_eax := 0 } } })

/-- The harvest branch of sys_ipc_recv (source lines 518-532) for the parked
sender at slot `i`: zero the caller's env_ipc_perm, then, if the sender
parked a page and the caller's current `dstva` is below UTOP, insert that
page at `dstva` (failing with -E_NO_MEM when page_insert fails) and record
the parked perm; finally deliver value and wake the sender. -/
def ipcRecvHarvest (st : KState) (i dstva : Nat) (insertOk : Bool) : SysRes × KState :=
  let st1 := setE st st.cur { getE st st.cur with env_ipc_perm := 0 }
  match (getE st1 i).env_ipc_pending_page with
  | some p =>
    if dstva < UTOP then
      if insertOk then
        ipcRecvDeliver
          (setE st1 st.cur
            { getE st1 st.cur with
              env_pgdir :=
                page_insert (getE st1 st.cur).env_pgdir p dstva
                  (getE st1 i).env_ipc_pending_perm
              env_ipc_perm := (getE st1 i).env_ipc_pending_perm })
          i
      else (SysRes.val (-E_NO_MEM), st1)
    else ipcRecvDeliver st1 i
  | none => ipcRecvDeliver st1 i

/-- The scan-or-block part of sys_ipc_recv (source lines 515-541): harvest
the first parked sender targeting the caller, or record that the caller is
receiving, mark it NOT_RUNNABLE and yield. -/
def ipcRecvScan (st : KState) (dstva : Nat) (insertOk : Bool) : SysRes × KState :=
  match scanPending (getE st st.cur).env_id st.envs with
  | some i => ipcRecvHarvest st i dstva insertOk
  | none =>
    (SysRes.yielded,
      setE st st.cur
        { getE st st.cur with
          env_ipc_recving := true
          env_status := ENV_NOT_RUNNABLE })

/-- sys_ipc_recv from the source: when `dstva < UTOP` require it to be
page-aligned and record it in env_ipc_dstva (when `dstva ≥ UTOP` the field
is left as it was), then scan for a parked sender or block. -/
def sys_ipc_recv (st : KState) (dstva : Nat) (insertOk : Bool) : SysRes × KState :=
  if dstva < UTOP then
    if dstva % PGSIZE ≠ 0 then (SysRes.val (-E_INVAL), st)
    else
      ipcRecvScan (setE st st.cur { getE st st.cur with env_ipc_dstva := dstva })
        dstva insertOk
  else ipcRecvScan st dstva insertOk

/-! Concrete fixtures used by witnesses and counterexamples. -/

/-- A concrete register frame. -/
def tfS : Trapframe := { tf_regs := { reg_eax := 11, reg_rest := 22 }, tf_rest := 33 }

/-- A concrete running env owning one writable page mapping at 0x2000. -/
def envS : Env := { emptyEnv with
  env_id := 0x1001
  env_status := ENV_RUNNING
  env_tf := tfS
  env_pgdir := [(0x2000, 42, 7)] }

/-- A concrete runnable env, child of `envS`. -/
def envR : Env := { emptyEnv with
  env_id := 0x1002
  env_parent_id := 0x1001
  env_status := ENV_RUNNABLE
  env_tf := tfS }

/-- A one-env kernel state with `envS` current. -/
def stA : KState := { envs := [envS], cur := 0, free_pages := [] }

/-- A two-env kernel state with `envS` current and its child `envR`. -/
def stB : KState := { envs := [envS, envR], cur := 0, free_pages := [] }

/-! Generic helper lemmas about the state accessors. -/

/-- Reading after a list update, in one equation covering the out-of-range
no-op of `List.set`. -/
theorem getD_set {α : Type} (l : List α) (i j : Nat) (a d : α) :
    (l.set i a).getD j d = if i = j ∧ i < l.length then a else l.getD j d := by
  induction l generalizing i j with
  | nil => simp
  | cons x xs ih =>
    cases i with
    | zero =>
      cases j with
      | zero => simp
      | succ n => simp
    | succ m =>
      cases j with
      | zero => simp
      | succ n =>
        simpa [Nat.succ_lt_succ_iff] using ih m n

/-- Reading a slot after writing one, in one equation. -/
theorem getE_setE (st : KState) (i j : Nat) (e : Env) :
    getE (setE st i e) j = if i = j ∧ i < st.envs.length then e else getE st j :=
  getD_set st.envs i j e emptyEnv

/-- Writing a slot does not change the current-env index. -/
theorem setE_cur (st : KState) (i : Nat) (e : Env) : (setE st i e).cur = st.cur := rfl

/-- Writing a slot does not change the table length. -/
theorem setE_length (st : KState) (i : Nat) (e : Env) :
    (setE st i e).envs.length = st.envs.length := by
  simp [setE]

/-- Writing a slot does not change the free list. -/
theorem setE_free (st : KState) (i : Nat) (e : Env) :
    (setE st i e).free_pages = st.free_pages := rfl

/-- A successful `findEnvIdx` yields an in-range slot. -/
theorem findEnvIdx_some_lt {envid : Nat} :
    ∀ {l : List Env} {i : Nat}, findEnvIdx envid l = some i → i < l.length := by
  intro l
  induction l with
  | nil => intro i h; simp [findEnvIdx] at h
  | cons e rest ih =>
    intro i h
    simp only [findEnvIdx] at h
    split at h
    · injection h with h
      subst h
      simp
    · cases hf : findEnvIdx envid rest with
      | none => rw [hf] at h; simp at h
      | some j =>
        rw [hf] at h
        simp at h
        have := ih hf
        simp
        omega

/-- A successful env lookup yields an in-range slot, given that the current
slot is in range. -/
theorem envid2env_lt {st : KState} {envid : Nat} {cp : Bool} {i : Nat}
    (hcur : st.cur < st.envs.length) (h : envid2env st envid cp = some i) :
    i < st.envs.length := by
  unfold envid2env at h
  by_cases h0 : envid = 0
  · simp [h0] at h
    omega
  · simp [h0] at h
    cases hf : findEnvIdx envid st.envs with
    | none => simp [hf] at h
    | some j =>
      have hj := findEnvIdx_some_lt hf
      simp [hf] at h
      cases cp with
      | false => simp at h; omega
      | true =>
        simp at h
        obtain ⟨-, h2⟩ := h
        omega

/-! Claim theorems. -/

/-- C3: for every successful exofork call, the child has status NOT_RUNNABLE,
its register frame equals the parent's except that the accumulator is 0, its
break and parent id come from the caller, and the caller's return value is
the child's env id. -/
theorem exofork_child_spec (cur fresh : Env) (r : Int) (child : Env)
    (h : sys_exofork cur (Except.ok fresh) = (r, some child)) :
    child.env_status = ENV_NOT_RUNNABLE ∧
    child.env_tf = { cur.env_tf with
                     tf_regs := { cur.env_tf.tf_regs with reg_eax := 0 } } ∧
    child.env_break = cur.env_break ∧
    child.env_parent_id = cur.env_id ∧
    r = (child.env_id : Int) := by
  simp only [sys_exofork, env_alloc, Prod.mk.injEq, Option.some.injEq] at h
  obtain ⟨hr, hc⟩ := h
  subst hc
  refine ⟨rfl, rfl, rfl, rfl, ?_⟩
  exact hr.symm

/-- A concrete fresh env handed to `sys_exofork` by the (external) env
allocator in the C3 witness. -/
def c3_fresh : Env := { emptyEnv with env_id := 0x1002 }

/-- Witness for C3 at a concrete parent and fresh env. -/
theorem exofork_child_spec_wit :
    (sys_exofork envS (Except.ok c3_fresh)).2 =
      some ((sys_exofork envS (Except.ok c3_fresh)).2.getD emptyEnv) ∧
    (((sys_exofork envS (Except.ok c3_fresh)).2.getD emptyEnv).env_status = ENV_NOT_RUNNABLE ∧
     ((sys_exofork envS (Except.ok c3_fresh)).2.getD emptyEnv).env_tf =
       { envS.env_tf with tf_regs := { envS.env_tf.tf_regs with reg_eax := 0 } } ∧
     ((sys_exofork envS (Except.ok c3_fresh)).2.getD emptyEnv).env_break = envS.env_break ∧
     ((sys_exofork envS (Except.ok c3_fresh)).2.getD emptyEnv).env_parent_id = envS.env_id ∧
     (sys_exofork envS (Except.ok c3_fresh)).1 =
       (((sys_exofork envS (Except.ok c3_fresh)).2.getD emptyEnv).env_id : Int)) :=
  ⟨rfl, exofork_child_spec envS c3_fresh _ _ rfl⟩

/-- C6: every error return of sys_page_alloc leaves the kernel state exactly
as it was: validation failures mutate nothing, and when page_insert fails the
freshly allocated page is pushed back on the free list, so no page leaks and
no mapping is left behind. -/
theorem page_alloc_error_leaves_state (st : KState) (envid va perm : Nat) (insOk : Bool)
    (h : (sys_page_alloc st envid va perm insOk).1 < 0) :
    (sys_page_alloc st envid va perm insOk).2 = st := by
  cases henv : envid2env st envid true with
  | none => simp [sys_page_alloc, henv]
  | some i =>
    by_cases hva : UTOP ≤ va ∨ va % PGSIZE ≠ 0
    · simp [sys_page_alloc, henv, hva]
    · cases hperm : permBad perm with
      | true => simp [sys_page_alloc, henv, hva, hperm]
      | false =>
        cases hfp : st.free_pages with
        | nil => simp [sys_page_alloc, henv, hva, hperm, pageAllocPhys, hfp]
        | cons p rest =>
          cases insOk with
          | true =>
            exfalso
            simp [sys_page_alloc, henv, hva, hperm, pageAllocPhys, hfp] at h
          | false =>
            simp [sys_page_alloc, henv, hva, hperm, pageAllocPhys, hfp, pageFreePhys]
            rw [← hfp]

/-- Witness for C6: a concrete call in which page_insert fails, exercising
the alloc-then-free rollback. -/
theorem page_alloc_error_leaves_state_wit :
    (sys_page_alloc { stA with free_pages := [9] } 0 0x3000 7 false).1 < 0 ∧
    (sys_page_alloc { stA with free_pages := [9] } 0 0x3000 7 false).2 =
      { stA with free_pages := [9] } :=
  ⟨by decide, page_alloc_error_leaves_state _ 0 0x3000 7 false (by decide)⟩

/-- C7: when the physical address passed to sys_map_kernel_page has no
managed page (pa2page yields nothing), the source returns the constant
E_INVAL without the customary negation, so the caller receives the positive
value 3 rather than a negative error code. -/
theorem map_kernel_page_positive_einval :
    sys_map_kernel_page stA none 0x1000 true = (E_INVAL, stA) ∧
    ¬ ((sys_map_kernel_page stA none 0x1000 true).1 < 0) :=
  ⟨rfl, by decide⟩

/-- A kernel state for C8: `envS` current, its child `envR` the target. -/
def c8_st : KState := stB

/-- C8 counterexample: with a valid, permitted envid and a null func, the
call does not return an error value to the caller at all — it panics. -/
theorem set_pgfault_upcall_null_no_error_cex :
    (sys_env_set_pgfault_upcall c8_st 0x1002 0).1 = SysRes.panicked ∧
    (sys_env_set_pgfault_upcall c8_st 0x1002 0).1 ≠ SysRes.val (-E_INVAL) ∧
    (sys_env_set_pgfault_upcall c8_st 0x1002 0).1 ≠ SysRes.val (-E_BAD_ENV) :=
  ⟨rfl, by decide, by decide⟩

/-- C8 amended: with a valid, permitted envid and a null func pointer the
call panics (kernel abort) instead of returning an error, and the kernel
state — in particular the target's env_pgfault_upcall — is unchanged. -/
theorem set_pgfault_upcall_null_panics (st : KState) (envid : Nat) (i : Nat)
    (h : envid2env st envid true = some i) :
    sys_env_set_pgfault_upcall st envid 0 = (SysRes.panicked, st) := by
  simp [sys_env_set_pgfault_upcall, h]

/-- Witness for the amended C8 at a concrete state. -/
theorem set_pgfault_upcall_null_panics_wit :
    envid2env c8_st 0x1002 true = some 1 ∧
    sys_env_set_pgfault_upcall c8_st 0x1002 0 = (SysRes.panicked, c8_st) :=
  ⟨rfl, set_pgfault_upcall_null_panics c8_st 0x1002 1 rfl⟩

/-- C4: sys_page_map refuses to grant PTE_W when the source entry lacks it.
First part: with both env lookups succeeding and a non-writable source
mapping, a write-requesting call returns -E_INVAL and leaves the state — in
particular the destination env — unchanged.  Second part: any call returning
0 while requesting PTE_W had a writable source entry. -/
theorem page_map_no_write_escalation (st : KState)
    (srcenvid srcva dstenvid dstva perm : Nat) (insOk : Bool) :
    (∀ si di page srcpte,
        envid2env st srcenvid true = some si →
        envid2env st dstenvid true = some di →
        page_lookup (getE st si).env_pgdir srcva = some (page, srcpte) →
        perm &&& PTE_W ≠ 0 → srcpte &&& PTE_W = 0 →
        sys_page_map st srcenvid srcva dstenvid dstva perm insOk = (-E_INVAL, st)) ∧
    ((sys_page_map st srcenvid srcva dstenvid dstva perm insOk).1 = 0 →
      perm &&& PTE_W ≠ 0 →
      ∃ si page srcpte,
        envid2env st srcenvid true = some si ∧
        page_lookup (getE st si).env_pgdir srcva = some (page, srcpte) ∧
        srcpte &&& PTE_W ≠ 0) := by
  constructor
  · intro si di page srcpte hsi hdi hpl hW hro
    by_cases h1 : UTOP ≤ srcva ∨ srcva % PGSIZE ≠ 0
    · simp [sys_page_map, hsi, hdi, h1]
    · by_cases h2 : UTOP ≤ dstva ∨ dstva % PGSIZE ≠ 0
      · simp [sys_page_map, hsi, hdi, h1, h2]
      · cases h3 : permBad perm with
        | true => simp [sys_page_map, hsi, hdi, h1, h2, hpl, h3]
        | false => simp [sys_page_map, hsi, hdi, h1, h2, hpl, h3, hW, hro]
  · intro h0 hW
    cases hsi : envid2env st srcenvid true with
    | none => simp [sys_page_map, hsi, E_BAD_ENV] at h0
    | some si =>
      cases hdi : envid2env st dstenvid true with
      | none => simp [sys_page_map, hsi, hdi, E_BAD_ENV] at h0
      | some di =>
        by_cases h1 : UTOP ≤ srcva ∨ srcva % PGSIZE ≠ 0
        · simp [sys_page_map, hsi, hdi, h1, E_INVAL] at h0
        · by_cases h2 : UTOP ≤ dstva ∨ dstva % PGSIZE ≠ 0
          · simp [sys_page_map, hsi, hdi, h1, h2, E_INVAL] at h0
          · cases hpl : page_lookup (getE st si).env_pgdir srcva with
            | none => simp [sys_page_map, hsi, hdi, h1, h2, hpl, E_INVAL] at h0
            | some pr =>
              obtain ⟨page, srcpte⟩ := pr
              cases h3 : permBad perm with
              | true => simp [sys_page_map, hsi, hdi, h1, h2, hpl, h3, E_INVAL] at h0
              | false =>
                by_cases h4 : perm &&& PTE_W ≠ 0 ∧ srcpte &&& PTE_W = 0
                · simp [sys_page_map, hsi, hdi, h1, h2, hpl, h3, h4, E_INVAL] at h0
                · cases insOk with
                  | false =>
                    simp [sys_page_map, hsi, hdi, h1, h2, hpl, h3, h4, E_NO_MEM] at h0
                  | true =>
                    exact ⟨si, page, srcpte, rfl, hpl, fun hz => h4 ⟨hW, hz⟩⟩

/-- A source env for the C4 witness whose page at 0x2000 is read-only
(pte bits PTE_U|PTE_P, no PTE_W). -/
def c4_S : Env := { envS with env_pgdir := [(0x2000, 42, 5)] }

/-- Kernel state for the C4 witness: read-only source `c4_S` current, its
child `envR` as destination. -/
def c4_st : KState := { envs := [c4_S, envR], cur := 0, free_pages := [] }

/-- Witness for C4: a concrete write-requesting map from a read-only source
returns -E_INVAL and changes nothing. -/
theorem page_map_no_write_escalation_wit :
    envid2env c4_st 0x1001 true = some 0 ∧
    envid2env c4_st 0x1002 true = some 1 ∧
    page_lookup (getE c4_st 0).env_pgdir 0x2000 = some (42, 5) ∧
    (7 : Nat) &&& PTE_W ≠ 0 ∧ (5 : Nat) &&& PTE_W = 0 ∧
    sys_page_map c4_st 0x1001 0x2000 0x1002 0x4000 7 true = (-E_INVAL, c4_st) :=
  ⟨rfl, rfl, rfl, by decide, by decide,
    (page_map_no_write_escalation c4_st 0x1001 0x2000 0x1002 0x4000 7 true).1
      0 1 42 5 rfl rfl rfl (by decide) (by decide)⟩

/-- Every result of the closing block of sys_ipc_try_send that is a returned
value is the value 0. -/
theorem ipcSendFinish_val {st : KState} {ti envid value : Nat} {r : Int}
    (h : (ipcSendFinish st ti envid value).1 = SysRes.val r) : r = 0 := by
  unfold ipcSendFinish at h
  split at h <;> simp_all

/-- After the early-clear statement, every error return of the remainder of
sys_ipc_try_send leaves the state exactly as the early-clear left it. -/
theorem ipcSendRest_err (st : KState) (ti envid value srcva perm : Nat)
    (insOk : Bool) (r : Int)
    (h : (ipcSendRest st ti envid value srcva perm insOk).1 = SysRes.val r)
    (hr : r < 0) :
    (ipcSendRest st ti envid value srcva perm insOk).2 = st := by
  by_cases d1 : srcva < UTOP ∧
      ((getE st ti).env_ipc_dstva < UTOP ∨ (getE st ti).env_ipc_recving = false)
  · by_cases d2 : srcva % PGSIZE ≠ 0
    · simp [ipcSendRest, d1, d2]
    · cases d3 : permBad perm with
      | true => simp [ipcSendRest, d1, d2, d3]
      | false =>
        cases d4 : page_lookup (getE st st.cur).env_pgdir srcva with
        | none => simp [ipcSendRest, d1, d2, d3, d4]
        | some pr =>
          obtain ⟨page, srcpte⟩ := pr
          by_cases d5 : perm &&& PTE_W ≠ 0 ∧ srcpte &&& PTE_W = 0
          · simp [ipcSendRest, d1, d2, d3, d4, d5]
          · cases d6 : (getE st ti).env_ipc_recving with
            | true =>
              have hB : (getE st ti).env_ipc_dstva < UTOP :=
                d1.2.resolve_right (by simp [d6])
              cases insOk with
              | true =>
                exfalso
                simp [ipcSendRest, d1, d2, d3, d4, d5, d6, hB] at h
                have := ipcSendFinish_val h
                omega
              | false => simp [ipcSendRest, d1, d2, d3, d4, d5, d6, hB]
            | false =>
              exfalso
              simp [ipcSendRest, d1, d2, d3, d4, d5, d6] at h
              have := ipcSendFinish_val h
              omega
  · exfalso
    simp [ipcSendRest, d1] at h
    have := ipcSendFinish_val h
    omega

/-- C1 amended: when sys_ipc_try_send returns an error, the state either is
completely untouched (target lookup failed) or differs from entry only by
the one pre-validation statement `ipcSendStep1` — the target's env_ipc_perm
zeroed when the target was receiving, else the caller's parked pending page
cleared.  No other field of any env changes on an error return. -/
theorem ipc_try_send_error_mutation_bound (st : KState) (envid value srcva perm : Nat)
    (insOk : Bool) (r : Int)
    (h : (sys_ipc_try_send st envid value srcva perm insOk).1 = SysRes.val r)
    (hr : r < 0) :
    (envid2env st envid false = none ∧
       (sys_ipc_try_send st envid value srcva perm insOk).2 = st) ∨
    (∃ ti, envid2env st envid false = some ti ∧
       (sys_ipc_try_send st envid value srcva perm insOk).2 = ipcSendStep1 st ti) := by
  cases he : envid2env st envid false with
  | none =>
    left
    exact ⟨rfl, by simp [sys_ipc_try_send, he]⟩
  | some ti =>
    right
    refine ⟨ti, rfl, ?_⟩
    have h' : (ipcSendRest (ipcSendStep1 st ti) ti envid value srcva perm insOk).1 =
        SysRes.val r := by
      simpa [sys_ipc_try_send, he] using h
    have h2 := ipcSendRest_err (ipcSendStep1 st ti) ti envid value srcva perm insOk r h' hr
    simpa [sys_ipc_try_send, he] using h2

/-- A receiver for the C1 scenario: blocked in receive with a stale
env_ipc_perm of 5 left from an earlier exchange. -/
def c1_R : Env := { envR with
  env_status := ENV_NOT_RUNNABLE
  env_ipc_recving := true
  env_ipc_perm := 5 }

/-- Kernel state for the C1 scenario: sender `envS` current, receiver
`c1_R` blocked. -/
def c1_st : KState := { envs := [envS, c1_R], cur := 0, free_pages := [] }

/-- C1 counterexample: a send with a misaligned srcva fails with -E_INVAL,
yet the state after the call differs from the state at entry (the blocked
receiver's env_ipc_perm has been zeroed before validation). -/
theorem ipc_try_send_mutates_on_error_cex :
    (sys_ipc_try_send c1_st 0x1002 0 4097 7 true).1 = SysRes.val (-E_INVAL) ∧
    (getE (sys_ipc_try_send c1_st 0x1002 0 4097 7 true).2 1).env_ipc_perm = 0 ∧
    (getE c1_st 1).env_ipc_perm = 5 ∧
    (sys_ipc_try_send c1_st 0x1002 0 4097 7 true).2 ≠ c1_st :=
  ⟨rfl, rfl, rfl, by decide⟩

/-- Witness for the amended C1 at a concrete erroring call. -/
theorem ipc_try_send_error_mutation_bound_wit :
    (sys_ipc_try_send c1_st 0x1002 0 4097 7 true).1 = SysRes.val (-E_INVAL) ∧
    (-E_INVAL : Int) < 0 ∧
    ((envid2env c1_st 0x1002 false = none ∧
        (sys_ipc_try_send c1_st 0x1002 0 4097 7 true).2 = c1_st) ∨
     (∃ ti, envid2env c1_st 0x1002 false = some ti ∧
        (sys_ipc_try_send c1_st 0x1002 0 4097 7 true).2 = ipcSendStep1 c1_st ti)) :=
  ⟨rfl, by decide,
    ipc_try_send_error_mutation_bound c1_st 0x1002 0 4097 7 true (-E_INVAL) rfl (by decide)⟩

/-- A yielded outcome of the closing block of sys_ipc_try_send implies the
target was not receiving at that point. -/
theorem ipcSendFinish_yielded {st : KState} {ti envid value : Nat}
    (h : (ipcSendFinish st ti envid value).1 = SysRes.yielded) :
    (getE st ti).env_ipc_recving = false := by
  unfold ipcSendFinish at h
  split at h <;> simp_all

/-- A send whose target is receiving never parks the caller: the yielded
outcome of the post-clear part of sys_ipc_try_send implies the target was not
receiving. -/
theorem ipcSendRest_yielded_recv (st : KState) (ti envid value srcva perm : Nat)
    (insOk : Bool)
    (h : (ipcSendRest st ti envid value srcva perm insOk).1 = SysRes.yielded) :
    (getE st ti).env_ipc_recving = false := by
  cases d6 : (getE st ti).env_ipc_recving with
  | false => rfl
  | true =>
    exfalso
    have hfin : ∀ st2 : KState, (getE st2 ti).env_ipc_recving = true →
        (ipcSendFinish st2 ti envid value).1 = SysRes.val 0 := by
      intro st2 h2
      simp [ipcSendFinish, h2]
    by_cases d1 : srcva < UTOP ∧
        ((getE st ti).env_ipc_dstva < UTOP ∨ (getE st ti).env_ipc_recving = false)
    · by_cases d2 : srcva % PGSIZE ≠ 0
      · simp [ipcSendRest, d1, d2] at h
      · cases d3 : permBad perm with
        | true => simp [ipcSendRest, d1, d2, d3] at h
        | false =>
          cases d4 : page_lookup (getE st st.cur).env_pgdir srcva with
          | none => simp [ipcSendRest, d1, d2, d3, d4] at h
          | some pr =>
            obtain ⟨page, srcpte⟩ := pr
            by_cases d5 : perm &&& PTE_W ≠ 0 ∧ srcpte &&& PTE_W = 0
            · simp [ipcSendRest, d1, d2, d3, d4, d5] at h
            · have hB : (getE st ti).env_ipc_dstva < UTOP :=
                d1.2.resolve_right (by simp [d6])
              cases insOk with
              | false => simp [ipcSendRest, d1, d2, d3, d4, d5, d6, hB] at h
              | true =>
                simp [ipcSendRest, d1, d2, d3, d4, d5, d6, hB] at h
                have hx := ipcSendFinish_yielded h
                rw [getE_setE] at hx
                split at hx
                · simp at hx
                · simp [d6] at hx
    · simp [ipcSendRest, d1, hfin st d6] at h

/-- Reading any single field after a slot write that keeps that field equal
to the overwritten slot's value: the field reads the same at every slot. -/
theorem getE_setE_field_eq {α : Type} (st : KState) (k j : Nat) (e : Env) (f : Env → α)
    (hf : f e = f (getE st k)) : f (getE (setE st k e) j) = f (getE st j) := by
  rw [getE_setE]
  split
  · next hc => rw [hf, hc.1]
  · rfl

/-- The env-table scan returns an in-range index. -/
theorem scanPending_some_lt {c : Nat} :
    ∀ {l : List Env} {i : Nat}, scanPending c l = some i → i < l.length := by
  intro l
  induction l with
  | nil => intro i h; simp [scanPending] at h
  | cons e rest ih =>
    intro i h
    simp only [scanPending] at h
    split at h
    · injection h with h
      subst h
      simp
    · cases hf : scanPending c rest with
      | none => rw [hf] at h; simp at h
      | some j =>
        rw [hf] at h
        simp at h
        subst h
        have := ih hf
        simp
        omega

/-- The env found by the scan is not FREE and its parked send targets the
scanned id. -/
theorem scanPending_some_spec {c : Nat} :
    ∀ {l : List Env} {i : Nat}, scanPending c l = some i →
      (l.getD i emptyEnv).env_status ≠ ENV_FREE ∧
      (l.getD i emptyEnv).env_ipc_pending_envid = c := by
  intro l
  induction l with
  | nil => intro i h; simp [scanPending] at h
  | cons e rest ih =>
    intro i h
    simp only [scanPending] at h
    split at h
    · next hc =>
        injection h with h
        subst h
        exact hc
    · cases hf : scanPending c rest with
      | none => rw [hf] at h; simp at h
      | some j =>
        rw [hf] at h
        simp at h
        subst h
        exact ih hf

/-- The scan finds exactly the least matching index. -/
theorem scanPending_eq_some {c : Nat} :
    ∀ {l : List Env} {i : Nat}, i < l.length →
      ((l.getD i emptyEnv).env_status ≠ ENV_FREE ∧
       (l.getD i emptyEnv).env_ipc_pending_envid = c) →
      (∀ k, k < i → ¬((l.getD k emptyEnv).env_status ≠ ENV_FREE ∧
          (l.getD k emptyEnv).env_ipc_pending_envid = c)) →
      scanPending c l = some i := by
  intro l
  induction l with
  | nil => intro i hi; simp at hi
  | cons e rest ih =>
    intro i hi hp hleast
    cases i with
    | zero =>
      have hp' : e.env_status ≠ ENV_FREE ∧ e.env_ipc_pending_envid = c := hp
      simp only [scanPending]
      rw [if_pos hp']
    | succ n =>
      have h0 : ¬(e.env_status ≠ ENV_FREE ∧ e.env_ipc_pending_envid = c) :=
        hleast 0 (Nat.succ_pos n)
      simp only [scanPending]
      rw [if_neg h0]
      rw [ih (Nat.lt_of_succ_lt_succ hi) hp (fun k hk => hleast (k + 1) (by omega))]
      rfl

/-- The delivery tail returns 0 and wakes the parked sender at slot `i` with
its pending envid cleared, status RUNNABLE and accumulator zeroed. -/
theorem ipcRecvDeliver_fields (st : KState) (i : Nat) (hi : i < st.envs.length) :
    (ipcRecvDeliver st i).1 = SysRes.val 0 ∧
    (getE (ipcRecvDeliver st i).2 i).env_ipc_pending_envid = 0 ∧
    (getE (ipcRecvDeliver st i).2 i).env_status = ENV_RUNNABLE ∧
    (getE (ipcRecvDeliver st i).2 i).env_tf.tf_regs.reg_eax = 0 := by
  simp only [ipcRecvDeliver]
  refine ⟨?_, ?_, ?_, ?_⟩ <;> simp [getE_setE, setE_length, hi]

/-- The early-clear statement does not move the current-env index. -/
theorem step1_cur (st : KState) (ti : Nat) : (ipcSendStep1 st ti).cur = st.cur := by
  rw [ipcSendStep1]
  split <;> rfl

/-- The early-clear statement does not change the table length. -/
theorem step1_length (st : KState) (ti : Nat) :
    (ipcSendStep1 st ti).envs.length = st.envs.length := by
  rw [ipcSendStep1]
  split <;> simp [setE_length]

/-- The early-clear statement does not change the target's receiving bit. -/
theorem step1_recving (st : KState) (ti : Nat) :
    (getE (ipcSendStep1 st ti) ti).env_ipc_recving = (getE st ti).env_ipc_recving := by
  rw [ipcSendStep1]
  split
  · rw [getE_setE]
    split
    · rfl
    · rfl
  · rw [getE_setE]
    split
    · next hc =>
        show (getE st st.cur).env_ipc_recving = _
        rw [hc.1]
    · rfl

/-- A value-0 outcome of the closing block of sys_ipc_try_send implies the
target was receiving at that point. -/
theorem ipcSendFinish_val0 {st : KState} {ti envid value : Nat}
    (h : (ipcSendFinish st ti envid value).1 = SysRes.val 0) :
    (getE st ti).env_ipc_recving = true := by
  unfold ipcSendFinish at h
  split at h <;> simp_all

/-- A send that returns value 0 (immediately, without parking) had a
receiving target. -/
theorem ipcSendRest_val_zero_recv (st : KState) (ti envid value srcva perm : Nat)
    (insOk : Bool)
    (h : (ipcSendRest st ti envid value srcva perm insOk).1 = SysRes.val 0) :
    (getE st ti).env_ipc_recving = true := by
  cases d6 : (getE st ti).env_ipc_recving with
  | true => rfl
  | false =>
    exfalso
    by_cases hsv : srcva < UTOP
    · by_cases d2 : srcva % PGSIZE ≠ 0
      · simp [ipcSendRest, hsv, d6, d2, E_INVAL] at h
      · cases d3 : permBad perm with
        | true => simp [ipcSendRest, hsv, d6, d2, d3, E_INVAL] at h
        | false =>
          cases d4 : page_lookup (getE st st.cur).env_pgdir srcva with
          | none => simp [ipcSendRest, hsv, d6, d2, d3, d4, E_INVAL] at h
          | some pr =>
            obtain ⟨page, srcpte⟩ := pr
            by_cases d5 : perm &&& PTE_W ≠ 0 ∧ srcpte &&& PTE_W = 0
            · simp [ipcSendRest, hsv, d6, d2, d3, d4, d5, E_INVAL] at h
            · simp [ipcSendRest, hsv, d6, d2, d3, d4, d5] at h
              have hx := ipcSendFinish_val0 h
              rw [getE_setE] at hx
              split at hx
              · next hc =>
                  simp only [] at hx
                  rw [hc.1] at hx
                  simp [d6] at hx
              · simp [d6] at hx
    · simp [ipcSendRest, hsv, d6] at h
      have hx := ipcSendFinish_val0 h
      simp [d6] at hx

/-- The reading of a parked sender's slot either reduces to the delivery
tail on a state that differs from the entry state only at the caller's slot,
or fails with -E_NO_MEM when a page transfer was required and page_insert
failed. -/
theorem ipcRecvHarvest_result (st : KState) (i dstva : Nat) (insOk : Bool) :
    (∃ Y : KState, Y.envs.length = st.envs.length ∧ Y.cur = st.cur ∧
        (∀ j, j ≠ st.cur → getE Y j = getE st j) ∧
        ipcRecvHarvest st i dstva insOk = ipcRecvDeliver Y i) ∨
    (insOk = false ∧ (ipcRecvHarvest st i dstva insOk).1 = SysRes.val (-E_NO_MEM)) := by
  cases hp : (getE (setE st st.cur { getE st st.cur with env_ipc_perm := 0 })
      i).env_ipc_pending_page with
  | none =>
    left
    refine ⟨setE st st.cur { getE st st.cur with env_ipc_perm := 0 },
      by simp [setE_length], rfl, ?_, by simp [ipcRecvHarvest, hp]⟩
    intro j hj
    rw [getE_setE, if_neg (fun hx => hj hx.1.symm)]
  | some p =>
    by_cases hdv : dstva < UTOP
    · cases insOk with
      | false =>
        right
        exact ⟨rfl, by simp [ipcRecvHarvest, hp, hdv]⟩
      | true =>
        left
        refine ⟨setE (setE st st.cur { getE st st.cur with env_ipc_perm := 0 }) st.cur
            { getE (setE st st.cur { getE st st.cur with env_ipc_perm := 0 }) st.cur with
              env_pgdir := page_insert
                  (getE (setE st st.cur { getE st st.cur with env_ipc_perm := 0 })
                    st.cur).env_pgdir p dstva
                  (getE (setE st st.cur { getE st st.cur with env_ipc_perm := 0 })
                    i).env_ipc_pending_perm
              env_ipc_perm := (getE (setE st st.cur
                  { getE st st.cur with env_ipc_perm := 0 }) i).env_ipc_pending_perm },
          by simp [setE_length], rfl, ?_, by simp [ipcRecvHarvest, hp, hdv]⟩
        intro j hj
        rw [getE_setE, if_neg (fun hx => hj hx.1.symm),
            getE_setE, if_neg (fun hx => hj hx.1.symm)]
    · left
      refine ⟨setE st st.cur { getE st st.cur with env_ipc_perm := 0 },
        by simp [setE_length], rfl, ?_, by simp [ipcRecvHarvest, hp, hdv]⟩
      intro j hj
      rw [getE_setE, if_neg (fun hx => hj hx.1.symm)]

/-- After the delivery tail, the caller records the harvested sender's id in
env_ipc_from. -/
theorem ipcRecvDeliver_from (st : KState) (i : Nat) (hcur : st.cur < st.envs.length)
    (hne : i ≠ st.cur) :
    (getE (ipcRecvDeliver st i).2 st.cur).env_ipc_from = (getE st i).env_id := by
  simp only [ipcRecvDeliver]
  rw [getE_setE, if_neg (fun hx => hne hx.1), getE_setE, if_pos ⟨rfl, hcur⟩]

/-- The delivery tail touches only the caller's slot and slot `i`. -/
theorem ipcRecvDeliver_preserve (st : KState) (i j : Nat) (hji : j ≠ i)
    (hjc : j ≠ st.cur) :
    getE (ipcRecvDeliver st i).2 j = getE st j := by
  simp only [ipcRecvDeliver]
  rw [getE_setE, if_neg (fun hx => hji hx.1.symm),
      getE_setE, if_neg (fun hx => hjc hx.1.symm)]

/-- C10: whenever sys_ipc_try_send parks its caller (the yielded outcome),
the caller ends NOT_RUNNABLE and its env_ipc_pending_page is either cleared
or exactly a page that this very call looked up and permission-checked (so a
stale page from an earlier send never survives into the parked record). -/
theorem ipc_send_pending_page_fresh (st : KState) (envid value srcva perm : Nat)
    (insOk : Bool) (hcur : st.cur < st.envs.length)
    (h : (sys_ipc_try_send st envid value srcva perm insOk).1 = SysRes.yielded) :
    (getE (sys_ipc_try_send st envid value srcva perm insOk).2 st.cur).env_status =
      ENV_NOT_RUNNABLE ∧
    ((getE (sys_ipc_try_send st envid value srcva perm insOk).2
        st.cur).env_ipc_pending_page = none ∨
     ∃ page srcpte,
       page_lookup (getE st st.cur).env_pgdir srcva = some (page, srcpte) ∧
       (getE (sys_ipc_try_send st envid value srcva perm insOk).2
           st.cur).env_ipc_pending_page = some page ∧
       srcva < UTOP ∧ srcva % PGSIZE = 0 ∧ permBad perm = false ∧
       (perm &&& PTE_W ≠ 0 → srcpte &&& PTE_W ≠ 0)) := by
  cases he : envid2env st envid false with
  | none => simp [sys_ipc_try_send, he] at h
  | some ti =>
    have h' : (ipcSendRest (ipcSendStep1 st ti) ti envid value srcva perm insOk).1 =
        SysRes.yielded := by
      simpa [sys_ipc_try_send, he] using h
    have d6 : (getE st ti).env_ipc_recving = false := by
      have hs := ipcSendRest_yielded_recv _ ti envid value srcva perm insOk h'
      cases hd : (getE st ti).env_ipc_recving with
      | false => rfl
      | true =>
        rw [ipcSendStep1, if_pos hd, getE_setE] at hs
        split at hs
        · simp [hd] at hs
        · simp [hd] at hs
    have h1cur : (ipcSendStep1 st ti).cur = st.cur := by
      rw [ipcSendStep1, if_neg (by simp [d6])]
      rfl
    have h1len : (ipcSendStep1 st ti).envs.length = st.envs.length := by
      rw [ipcSendStep1]
      split <;> simp [setE]
    have h1recv : (getE (ipcSendStep1 st ti) ti).env_ipc_recving = false := by
      rw [ipcSendStep1, if_neg (by simp [d6]), getE_setE]
      split
      · next hc =>
          show (getE st st.cur).env_ipc_recving = false
          rw [hc.1]
          exact d6
      · exact d6
    have h1pp : (getE (ipcSendStep1 st ti) st.cur).env_ipc_pending_page = none := by
      rw [ipcSendStep1, if_neg (by simp [d6]), getE_setE]
      simp [hcur]
    have h1pg : (getE (ipcSendStep1 st ti) st.cur).env_pgdir =
        (getE st st.cur).env_pgdir := by
      rw [ipcSendStep1, if_neg (by simp [d6]), getE_setE]
      simp [hcur]
    by_cases hsv : srcva < UTOP
    · by_cases d2 : srcva % PGSIZE ≠ 0
      · simp [ipcSendRest, hsv, h1recv, d2] at h'
      · cases d3 : permBad perm with
        | true => simp [ipcSendRest, hsv, h1recv, d2, d3] at h'
        | false =>
          cases d4 : page_lookup (getE st st.cur).env_pgdir srcva with
          | none =>
            have d4n : page_lookup (getE (ipcSendStep1 st ti) st.cur).env_pgdir srcva =
                none := by
              rw [h1pg]
              exact d4
            simp [ipcSendRest, hsv, h1recv, d2, d3, d4n, h1cur] at h'
          | some pr =>
            obtain ⟨page, srcpte⟩ := pr
            by_cases d5 : perm &&& PTE_W ≠ 0 ∧ srcpte &&& PTE_W = 0
            · have d4c : page_lookup (getE (ipcSendStep1 st ti) st.cur).env_pgdir srcva =
                  some (page, srcpte) := by
                rw [h1pg]
                exact d4
              simp [ipcSendRest, hsv, h1recv, d2, d3, d4c, d5, h1cur] at h'
            · -- the parked-with-page path
              have d4c : page_lookup (getE (ipcSendStep1 st ti) st.cur).env_pgdir srcva =
                  some (page, srcpte) := by
                rw [h1pg]
                exact d4
              by_cases hti : st.cur = ti
              · subst hti
                refine And.intro ?_ (Or.inr ⟨page, srcpte, rfl, ?_, hsv, by omega, rfl,
                  fun hA hB => d5 ⟨hA, hB⟩⟩)
                · simp [sys_ipc_try_send, he, ipcSendRest, hsv, h1recv, d2, d3, d4c, d5,
                    ipcSendFinish, getE_setE, setE_cur, setE_length, h1cur, h1len, hcur]
                · simp [sys_ipc_try_send, he, ipcSendRest, hsv, h1recv, d2, d3, d4c, d5,
                    ipcSendFinish, getE_setE, setE_cur, setE_length, h1cur, h1len, hcur]
              · have hti' : ¬ (ti = st.cur) := fun hx => hti hx.symm
                refine And.intro ?_ (Or.inr ⟨page, srcpte, rfl, ?_, hsv, by omega, rfl,
                  fun hA hB => d5 ⟨hA, hB⟩⟩)
                · simp [sys_ipc_try_send, he, ipcSendRest, hsv, h1recv, d2, d3, d4c, d5,
                    ipcSendFinish, getE_setE, setE_cur, setE_length, h1cur, h1len, hcur,
                    hti, hti']
                · simp [sys_ipc_try_send, he, ipcSendRest, hsv, h1recv, d2, d3, d4c, d5,
                    ipcSendFinish, getE_setE, setE_cur, setE_length, h1cur, h1len, hcur,
                    hti, hti']
    · -- srcva ≥ UTOP: the pending page stays cleared
      refine And.intro ?_ (Or.inl ?_)
      · simp [sys_ipc_try_send, he, ipcSendRest, hsv, ipcSendFinish, h1recv, getE_setE,
          setE_cur, setE_length, h1cur, h1len, hcur]
      · simp [sys_ipc_try_send, he, ipcSendRest, hsv, ipcSendFinish, h1recv, getE_setE,
          setE_cur, setE_length, h1cur, h1len, hcur, h1pp]

/-- Witness for C10 at a concrete parking send that stashes a page. -/
theorem ipc_send_pending_page_fresh_wit :
    stB.cur < stB.envs.length ∧
    (sys_ipc_try_send stB 0x1002 5 0x2000 7 true).1 = SysRes.yielded ∧
    ((getE (sys_ipc_try_send stB 0x1002 5 0x2000 7 true).2 stB.cur).env_status =
        ENV_NOT_RUNNABLE ∧
     ((getE (sys_ipc_try_send stB 0x1002 5 0x2000 7 true).2
          stB.cur).env_ipc_pending_page = none ∨
      ∃ page srcpte,
        page_lookup (getE stB stB.cur).env_pgdir 0x2000 = some (page, srcpte) ∧
        (getE (sys_ipc_try_send stB 0x1002 5 0x2000 7 true).2
            stB.cur).env_ipc_pending_page = some page ∧
        (0x2000 : Nat) < UTOP ∧ (0x2000 : Nat) % PGSIZE = 0 ∧ permBad 7 = false ∧
        ((7 : Nat) &&& PTE_W ≠ 0 → srcpte &&& PTE_W ≠ 0))) :=
  ⟨by decide, rfl, ipc_send_pending_page_fresh stB 0x1002 5 0x2000 7 true (by decide) rfl⟩

/-- C5: both wakeup paths zero the awoken partner's saved accumulator.  When
sys_ipc_try_send returns 0 the target was blocked receiving and is left
RUNNABLE with accumulator 0; when sys_ipc_recv returns 0 some non-FREE env
with a parked send targeting the caller is left RUNNABLE, pending cleared,
with accumulator 0. -/
theorem ipc_wakeup_zeroes_accumulator (st : KState) (hcur : st.cur < st.envs.length)
    (envid value srcva perm dstva : Nat) (insOk insOk2 : Bool) :
    ((sys_ipc_try_send st envid value srcva perm insOk).1 = SysRes.val 0 →
      ∃ ti, envid2env st envid false = some ti ∧
        (getE st ti).env_ipc_recving = true ∧
        (getE (sys_ipc_try_send st envid value srcva perm insOk).2
            ti).env_tf.tf_regs.reg_eax = 0 ∧
        (getE (sys_ipc_try_send st envid value srcva perm insOk).2 ti).env_status =
          ENV_RUNNABLE) ∧
    ((sys_ipc_recv st dstva insOk2).1 = SysRes.val 0 →
      ∃ i, i < st.envs.length ∧
        (getE st i).env_status ≠ ENV_FREE ∧
        (getE st i).env_ipc_pending_envid = (getE st st.cur).env_id ∧
        (getE (sys_ipc_recv st dstva insOk2).2 i).env_tf.tf_regs.reg_eax = 0 ∧
        (getE (sys_ipc_recv st dstva insOk2).2 i).env_status = ENV_RUNNABLE ∧
        (getE (sys_ipc_recv st dstva insOk2).2 i).env_ipc_pending_envid = 0) := by
  constructor
  · intro h
    cases he : envid2env st envid false with
    | none => simp [sys_ipc_try_send, he, E_BAD_ENV] at h
    | some ti =>
      have hti_lt : ti < st.envs.length := envid2env_lt hcur he
      have h' : (ipcSendRest (ipcSendStep1 st ti) ti envid value srcva perm insOk).1 =
          SysRes.val 0 := by
        simpa [sys_ipc_try_send, he] using h
      have hrecv : (getE st ti).env_ipc_recving = true := by
        have hx := ipcSendRest_val_zero_recv _ ti envid value srcva perm insOk h'
        rwa [step1_recving] at hx
      have hrecv1 : (getE (ipcSendStep1 st ti) ti).env_ipc_recving = true := by
        rw [step1_recving]
        exact hrecv
      refine ⟨ti, rfl, hrecv, ?_⟩
      by_cases hc1 : srcva < UTOP ∧
          ((getE (ipcSendStep1 st ti) ti).env_ipc_dstva < UTOP ∨
           (getE (ipcSendStep1 st ti) ti).env_ipc_recving = false)
      · by_cases d2 : srcva % PGSIZE ≠ 0
        · exfalso
          simp [ipcSendRest, hc1, d2, E_INVAL] at h'
        · cases d3 : permBad perm with
          | true =>
            exfalso
            simp [ipcSendRest, hc1, d2, d3, E_INVAL] at h'
          | false =>
            cases d4 : page_lookup (getE (ipcSendStep1 st ti)
                (ipcSendStep1 st ti).cur).env_pgdir srcva with
            | none =>
              exfalso
              simp [ipcSendRest, hc1, d2, d3, d4, E_INVAL] at h'
            | some pr =>
              obtain ⟨page, srcpte⟩ := pr
              by_cases d5 : perm &&& PTE_W ≠ 0 ∧ srcpte &&& PTE_W = 0
              · exfalso
                simp [ipcSendRest, hc1, d2, d3, d4, d5, E_INVAL] at h'
              · have hB : (getE (ipcSendStep1 st ti) ti).env_ipc_dstva < UTOP :=
                  hc1.2.resolve_right (by simp [hrecv1])
                cases insOk with
                | false =>
                  exfalso
                  simp [ipcSendRest, hc1, d2, d3, d4, d5, hrecv1, hB, E_NO_MEM] at h'
                | true =>
                  constructor <;>
                    simp [sys_ipc_try_send, he, ipcSendRest, hc1, d2, d3, d4, d5,
                      hrecv1, hB, ipcSendFinish, getE_setE, setE_length, step1_length,
                      hti_lt]
      · have hc1' : ¬(srcva < UTOP ∧
            (getE (ipcSendStep1 st ti) ti).env_ipc_dstva < UTOP) := by
          intro hx
          exact hc1 ⟨hx.1, Or.inl hx.2⟩
        constructor <;>
          simp [sys_ipc_try_send, he, ipcSendRest, hc1, hc1', ipcSendFinish, hrecv1,
            getE_setE, setE_length, step1_length, hti_lt]
  · intro h
    by_cases hd : dstva < UTOP
    · by_cases ha : dstva % PGSIZE ≠ 0
      · simp [sys_ipc_recv, hd, ha, E_INVAL] at h
      · have hgoal : sys_ipc_recv st dstva insOk2 =
            ipcRecvScan (setE st st.cur { getE st st.cur with env_ipc_dstva := dstva })
              dstva insOk2 := by
          simp [sys_ipc_recv, hd, ha]
        rw [hgoal] at h ⊢
        set st1 := setE st st.cur { getE st st.cur with env_ipc_dstva := dstva } with hst1
        cases hs : scanPending (getE st1 st1.cur).env_id st1.envs with
        | none => simp [ipcRecvScan, hs] at h
        | some i =>
          simp only [ipcRecvScan, hs] at h ⊢
          have hi1 : i < st1.envs.length := scanPending_some_lt hs
          have hlen1 : st1.envs.length = st.envs.length := by
            rw [hst1]
            simp [setE_length]
          have hilen : i < st.envs.length := by omega
          have hpred := scanPending_some_spec hs
          have t1 : (getE st1 i).env_status = (getE st i).env_status := by
            rw [hst1]
            exact getE_setE_field_eq st st.cur i _ Env.env_status rfl
          have t2 : (getE st1 i).env_ipc_pending_envid =
              (getE st i).env_ipc_pending_envid := by
            rw [hst1]
            exact getE_setE_field_eq st st.cur i _ Env.env_ipc_pending_envid rfl
          have t3 : (getE st1 st1.cur).env_id = (getE st st.cur).env_id := by
            rw [hst1]
            exact getE_setE_field_eq st st.cur st.cur _ Env.env_id rfl
          rcases ipcRecvHarvest_result st1 i dstva insOk2 with
            ⟨Y, hYlen, hYcur, hYpres, hYeq⟩ | ⟨-, hno⟩
          · rw [hYeq] at h ⊢
            have hiY : i < Y.envs.length := by
              rw [hYlen]
              exact hi1
            have hfields := ipcRecvDeliver_fields Y i hiY
            refine ⟨i, hilen, ?_, ?_, hfields.2.2.2, hfields.2.2.1, hfields.2.1⟩
            · rw [← t1]
              exact hpred.1
            · rw [← t2, ← t3]
              exact hpred.2
          · rw [hno] at h
            simp [E_NO_MEM] at h
    · have hgoal : sys_ipc_recv st dstva insOk2 = ipcRecvScan st dstva insOk2 := by
        simp [sys_ipc_recv, hd]
      rw [hgoal] at h ⊢
      cases hs : scanPending (getE st st.cur).env_id st.envs with
      | none => simp [ipcRecvScan, hs] at h
      | some i =>
        simp only [ipcRecvScan, hs] at h ⊢
        have hi1 : i < st.envs.length := scanPending_some_lt hs
        have hpred := scanPending_some_spec hs
        rcases ipcRecvHarvest_result st i dstva insOk2 with
          ⟨Y, hYlen, hYcur, hYpres, hYeq⟩ | ⟨-, hno⟩
        · rw [hYeq] at h ⊢
          have hiY : i < Y.envs.length := by
            rw [hYlen]
            exact hi1
          have hfields := ipcRecvDeliver_fields Y i hiY
          exact ⟨i, hi1, hpred.1, hpred.2, hfields.2.2.2, hfields.2.2.1, hfields.2.1⟩
        · rw [hno] at h
          simp [E_NO_MEM] at h

/-- Running env for the C5 witness. -/
def c5_A : Env := { emptyEnv with env_id := 0xA, env_status := ENV_RUNNING, env_tf := tfS }

/-- Blocked receiver for the C5 witness. -/
def c5_B : Env := { emptyEnv with
  env_id := 0xB
  env_status := ENV_NOT_RUNNABLE
  env_tf := tfS
  env_ipc_recving := true }

/-- Parked sender (targeting `c5_A`) for the C5 witness. -/
def c5_C : Env := { emptyEnv with
  env_id := 0xC
  env_status := ENV_NOT_RUNNABLE
  env_tf := tfS
  env_ipc_pending_envid := 0xA
  env_ipc_pending_value := 77 }

/-- Kernel state for the C5 witness: `c5_A` current, `c5_B` blocked in
receive, `c5_C` parked in send to `c5_A`. -/
def c5_st : KState := { envs := [c5_A, c5_B, c5_C], cur := 0, free_pages := [] }

/-- Witness for C5: a concrete send that wakes a blocked receiver, and a
concrete receive that harvests a parked sender. -/
theorem ipc_wakeup_zeroes_accumulator_wit :
    c5_st.cur < c5_st.envs.length ∧
    (sys_ipc_try_send c5_st 0xB 5 UTOP 0 true).1 = SysRes.val 0 ∧
    (sys_ipc_recv c5_st UTOP true).1 = SysRes.val 0 ∧
    (∃ ti, envid2env c5_st 0xB false = some ti ∧
      (getE c5_st ti).env_ipc_recving = true ∧
      (getE (sys_ipc_try_send c5_st 0xB 5 UTOP 0 true).2 ti).env_tf.tf_regs.reg_eax = 0 ∧
      (getE (sys_ipc_try_send c5_st 0xB 5 UTOP 0 true).2 ti).env_status = ENV_RUNNABLE) ∧
    (∃ i, i < c5_st.envs.length ∧
      (getE c5_st i).env_status ≠ ENV_FREE ∧
      (getE c5_st i).env_ipc_pending_envid = (getE c5_st c5_st.cur).env_id ∧
      (getE (sys_ipc_recv c5_st UTOP true).2 i).env_tf.tf_regs.reg_eax = 0 ∧
      (getE (sys_ipc_recv c5_st UTOP true).2 i).env_status = ENV_RUNNABLE ∧
      (getE (sys_ipc_recv c5_st UTOP true).2 i).env_ipc_pending_envid = 0) :=
  ⟨by decide, rfl, rfl,
    (ipc_wakeup_zeroes_accumulator c5_st (by decide) 0xB 5 UTOP 0 UTOP true true).1 rfl,
    (ipc_wakeup_zeroes_accumulator c5_st (by decide) 0xB 5 UTOP 0 UTOP true true).2 rfl⟩

/-- C9: when the caller enters sys_ipc_recv (with page_insert succeeding) and
slot `i` is the least slot holding a non-FREE env whose parked send targets
the caller, the call returns 0 and harvests exactly that sender — its
pending envid is cleared, it becomes RUNNABLE with accumulator 0, and the
caller records its id in env_ipc_from — while every other parked sender's
slot is left completely untouched. -/
theorem ipc_recv_harvests_least_index (st : KState) (dstva i : Nat)
    (hcur : st.cur < st.envs.length)
    (hi : i < st.envs.length)
    (hpark : (getE st i).env_status ≠ ENV_FREE ∧
             (getE st i).env_ipc_pending_envid = (getE st st.cur).env_id)
    (hleast : ∀ k, k < i → ¬((getE st k).env_status ≠ ENV_FREE ∧
        (getE st k).env_ipc_pending_envid = (getE st st.cur).env_id))
    (hcurnp : ¬((getE st st.cur).env_status ≠ ENV_FREE ∧
        (getE st st.cur).env_ipc_pending_envid = (getE st st.cur).env_id))
    (hdst : dstva < UTOP → dstva % PGSIZE = 0) :
    (sys_ipc_recv st dstva true).1 = SysRes.val 0 ∧
    (getE (sys_ipc_recv st dstva true).2 i).env_ipc_pending_envid = 0 ∧
    (getE (sys_ipc_recv st dstva true).2 i).env_status = ENV_RUNNABLE ∧
    (getE (sys_ipc_recv st dstva true).2 i).env_tf.tf_regs.reg_eax = 0 ∧
    (getE (sys_ipc_recv st dstva true).2 st.cur).env_ipc_from = (getE st i).env_id ∧
    (∀ j, j ≠ i →
      (getE st j).env_status ≠ ENV_FREE →
      (getE st j).env_ipc_pending_envid = (getE st st.cur).env_id →
      getE (sys_ipc_recv st dstva true).2 j = getE st j) := by
  have hine : i ≠ st.cur := by
    intro hx
    exact hcurnp (hx ▸ hpark)
  by_cases hd : dstva < UTOP
  · have ha : ¬ dstva % PGSIZE ≠ 0 := by
      simp [hdst hd]
    have hgoal : sys_ipc_recv st dstva true =
        ipcRecvScan (setE st st.cur { getE st st.cur with env_ipc_dstva := dstva })
          dstva true := by
      simp [sys_ipc_recv, hd, ha]
    rw [hgoal]
    set st1 := setE st st.cur { getE st st.cur with env_ipc_dstva := dstva } with hst1
    have hst1cur : st1.cur = st.cur := rfl
    have hlen1 : st1.envs.length = st.envs.length := by
      rw [hst1]
      simp [setE_length]
    have tS : ∀ j, (getE st1 j).env_status = (getE st j).env_status := by
      intro j
      rw [hst1]
      exact getE_setE_field_eq st st.cur j _ Env.env_status rfl
    have tP : ∀ j, (getE st1 j).env_ipc_pending_envid =
        (getE st j).env_ipc_pending_envid := by
      intro j
      rw [hst1]
      exact getE_setE_field_eq st st.cur j _ Env.env_ipc_pending_envid rfl
    have tI : ∀ j, (getE st1 j).env_id = (getE st j).env_id := by
      intro j
      rw [hst1]
      exact getE_setE_field_eq st st.cur j _ Env.env_id rfl
    have tAll : ∀ j, j ≠ st.cur → getE st1 j = getE st j := by
      intro j hj
      rw [hst1, getE_setE, if_neg (fun hx => hj hx.1.symm)]
    have hs : scanPending (getE st1 st1.cur).env_id st1.envs = some i := by
      apply scanPending_eq_some
      · rw [hlen1]
        exact hi
      · constructor
        · show (getE st1 i).env_status ≠ ENV_FREE
          rw [tS i]
          exact hpark.1
        · show (getE st1 i).env_ipc_pending_envid = (getE st1 st.cur).env_id
          rw [tP i, tI st.cur]
          exact hpark.2
      · intro k hk hx
        obtain ⟨hx1, hx2⟩ := hx
        replace hx1 : (getE st1 k).env_status ≠ ENV_FREE := hx1
        replace hx2 : (getE st1 k).env_ipc_pending_envid = (getE st1 st.cur).env_id := hx2
        rw [tS k] at hx1
        rw [tP k, tI st.cur] at hx2
        exact hleast k hk ⟨hx1, hx2⟩
    simp only [ipcRecvScan, hs]
    rcases ipcRecvHarvest_result st1 i dstva true with
      ⟨Y, hYlen, hYcur, hYpres, hYeq⟩ | ⟨hins, -⟩
    · rw [hYeq]
      have hYcur' : Y.cur = st.cur := by
        rw [hYcur]
        exact hst1cur
      have hiY : i < Y.envs.length := by
        rw [hYlen, hlen1]
        exact hi
      have hcurY : Y.cur < Y.envs.length := by
        rw [hYcur', hYlen, hlen1]
        exact hcur
      have hineY : i ≠ Y.cur := by
        rw [hYcur']
        exact hine
      have hfields := ipcRecvDeliver_fields Y i hiY
      have hfrom := ipcRecvDeliver_from Y i hcurY hineY
      rw [hYcur'] at hfrom
      have hYi : getE Y i = getE st i := by
        rw [hYpres i hine, tAll i hine]
      refine ⟨hfields.1, hfields.2.1, hfields.2.2.1, hfields.2.2.2, ?_, ?_⟩
      · rw [hfrom, hYi]
      · intro j hji hjS hjP
        have hjc : j ≠ st.cur := by
          intro hx
          exact hcurnp ⟨hx ▸ hjS, hx ▸ hjP⟩
        have hjY : j ≠ Y.cur := by
          rw [hYcur']
          exact hjc
        rw [ipcRecvDeliver_preserve Y i j hji hjY, hYpres j hjc, tAll j hjc]
    · simp at hins
  · have hgoal : sys_ipc_recv st dstva true = ipcRecvScan st dstva true := by
      simp [sys_ipc_recv, hd]
    rw [hgoal]
    have hs : scanPending (getE st st.cur).env_id st.envs = some i := by
      apply scanPending_eq_some hi hpark
      intro k hk hx
      exact hleast k hk hx
    simp only [ipcRecvScan, hs]
    rcases ipcRecvHarvest_result st i dstva true with
      ⟨Y, hYlen, hYcur, hYpres, hYeq⟩ | ⟨hins, -⟩
    · rw [hYeq]
      have hiY : i < Y.envs.length := by
        rw [hYlen]
        exact hi
      have hcurY : Y.cur < Y.envs.length := by
        rw [hYcur, hYlen]
        exact hcur
      have hineY : i ≠ Y.cur := by
        rw [hYcur]
        exact hine
      have hfields := ipcRecvDeliver_fields Y i hiY
      have hfrom := ipcRecvDeliver_from Y i hcurY hineY
      rw [hYcur] at hfrom
      have hYi : getE Y i = getE st i := hYpres i hine
      refine ⟨hfields.1, hfields.2.1, hfields.2.2.1, hfields.2.2.2, ?_, ?_⟩
      · rw [hfrom, hYi]
      · intro j hji hjS hjP
        have hjc : j ≠ st.cur := by
          intro hx
          exact hcurnp ⟨hx ▸ hjS, hx ▸ hjP⟩
        have hjY : j ≠ Y.cur := by
          rw [hYcur]
          exact hjc
        rw [ipcRecvDeliver_preserve Y i j hji hjY, hYpres j hjc]
    · simp at hins

/-- First parked sender (smaller slot) for the C9 witness. -/
def c9_S1 : Env := { emptyEnv with
  env_id := 0x1003
  env_status := ENV_NOT_RUNNABLE
  env_tf := tfS
  env_ipc_pending_envid := 0x1002
  env_ipc_pending_value := 77 }

/-- Second parked sender (larger slot) for the C9 witness. -/
def c9_S2 : Env := { emptyEnv with
  env_id := 0x1004
  env_status := ENV_NOT_RUNNABLE
  env_tf := tfS
  env_ipc_pending_envid := 0x1002
  env_ipc_pending_value := 88 }

/-- Kernel state for the C9 witness: two senders parked for the receiver
`envR`, which is current. -/
def c9_st : KState := { envs := [c9_S1, c9_S2, envR], cur := 2, free_pages := [] }

/-- Witness for C9: with two parked senders the receive harvests the one at
the smaller slot and leaves the other parked sender untouched. -/
theorem ipc_recv_harvests_least_index_wit :
    c9_st.cur < c9_st.envs.length ∧
    (0 : Nat) < c9_st.envs.length ∧
    ((getE c9_st 0).env_status ≠ ENV_FREE ∧
     (getE c9_st 0).env_ipc_pending_envid = (getE c9_st c9_st.cur).env_id) ∧
    (sys_ipc_recv c9_st UTOP true).1 = SysRes.val 0 ∧
    (getE (sys_ipc_recv c9_st UTOP true).2 0).env_ipc_pending_envid = 0 ∧
    (getE (sys_ipc_recv c9_st UTOP true).2 0).env_status = ENV_RUNNABLE ∧
    (getE (sys_ipc_recv c9_st UTOP true).2 0).env_tf.tf_regs.reg_eax = 0 ∧
    (getE (sys_ipc_recv c9_st UTOP true).2 c9_st.cur).env_ipc_from =
      (getE c9_st 0).env_id ∧
    getE (sys_ipc_recv c9_st UTOP true).2 1 = getE c9_st 1 :=
  ⟨by decide, by decide, ⟨by decide, rfl⟩,
    (ipc_recv_harvests_least_index c9_st UTOP 0 (by decide) (by decide)
      ⟨by decide, rfl⟩ (fun k hk => absurd hk (Nat.not_lt_zero k)) (by decide)
      (by decide)).1,
    (ipc_recv_harvests_least_index c9_st UTOP 0 (by decide) (by decide)
      ⟨by decide, rfl⟩ (fun k hk => absurd hk (Nat.not_lt_zero k)) (by decide)
      (by decide)).2.1,
    (ipc_recv_harvests_least_index c9_st UTOP 0 (by decide) (by decide)
      ⟨by decide, rfl⟩ (fun k hk => absurd hk (Nat.not_lt_zero k)) (by decide)
      (by decide)).2.2.1,
    (ipc_recv_harvests_least_index c9_st UTOP 0 (by decide) (by decide)
      ⟨by decide, rfl⟩ (fun k hk => absurd hk (Nat.not_lt_zero k)) (by decide)
      (by decide)).2.2.2.1,
    (ipc_recv_harvests_least_index c9_st UTOP 0 (by decide) (by decide)
      ⟨by decide, rfl⟩ (fun k hk => absurd hk (Nat.not_lt_zero k)) (by decide)
      (by decide)).2.2.2.2.1,
    (ipc_recv_harvests_least_index c9_st UTOP 0 (by decide) (by decide)
      ⟨by decide, rfl⟩ (fun k hk => absurd hk (Nat.not_lt_zero k)) (by decide)
      (by decide)).2.2.2.2.2 1 (by decide) (by decide) rfl⟩

/-- C2 scenario, step 0: sender `envS` (with a writable page at 0x2000) and
receiver `envR`; the receiver runs first. -/
def c2_st0 : KState := { envs := [envS, envR], cur := 1, free_pages := [] }

/-- C2 step 1: the receiver calls ipc_recv willing to accept a page at
0x1000; it blocks. -/
def c2_recv1 : SysRes × KState := sys_ipc_recv c2_st0 0x1000 true

/-- C2: control passes to the sender. -/
def c2_st1 : KState := { c2_recv1.2 with cur := 0 }

/-- C2 step 2: the sender completes a rendezvous without a page
(srcva = UTOP); the receiver wakes with value 99 and ipc_perm 0. -/
def c2_send1 : SysRes × KState := sys_ipc_try_send c2_st1 0x1002 99 UTOP 0 true

/-- C2: control passes back to the receiver. -/
def c2_st2 : KState := { c2_send1.2 with cur := 1 }

/-- C2 step 3: the receiver calls ipc_recv again, this time with
dstva = UTOP — the in-band signal that it does **not** want a page — and
blocks.  The stale env_ipc_dstva = 0x1000 from step 1 is not reset. -/
def c2_recv2 : SysRes × KState := sys_ipc_recv c2_st2 UTOP true

/-- C2: control passes to the sender again. -/
def c2_st3 : KState := { c2_recv2.2 with cur := 0 }

/-- C2 step 4: the sender sends with srcva = 0x2000 < UTOP.  Although the
receiver's current call passed dstva = UTOP, the code consults the stale
env_ipc_dstva and transfers the page. -/
def c2_send2 : SysRes × KState := sys_ipc_try_send c2_st3 0x1002 5 0x2000 7 true

/-- C2: a completed rendezvous in which the receiver's call passed
dstva = UTOP (so by the spec no page must be transferred and ipc_perm must
be 0), yet the code transfers the sender's page — mapping it at the stale
dstva 0x1000 — and delivers ipc_perm = 7 ≠ 0.  The page-transfer iff of the
claim fails on the receiver side. -/
theorem ipc_stale_dstva_transfers_page :
    c2_recv1.1 = SysRes.yielded ∧
    c2_send1.1 = SysRes.val 0 ∧
    (getE c2_st2 1).env_ipc_value = 99 ∧
    (getE c2_st2 1).env_ipc_perm = 0 ∧
    c2_recv2.1 = SysRes.yielded ∧
    (getE c2_recv2.2 1).env_ipc_recving = true ∧
    ¬ UTOP < UTOP ∧
    c2_send2.1 = SysRes.val 0 ∧
    (getE c2_send2.2 1).env_ipc_perm = 7 ∧
    (getE c2_send2.2 1).env_ipc_perm ≠ 0 ∧
    page_lookup (getE c2_send2.2 1).env_pgdir 0x1000 = some (42, 7) :=
  ⟨rfl, rfl, rfl, rfl, rfl, rfl, by decide, rfl, rfl, by decide, rfl⟩

end Jos
